import Mathlib

/-!
Shallow embedding of the elementwise-operator dispatch core of
manopapad/legate.numpy (src/src/less_equal_scalar.cc and
src/src/universal_functions/{floor.h, floor_divide.h, multiply.h,
cos.cc, not_equal.cc}).

The operator headers give the per-element functors; the `.cc` files give
the explicit per-type instantiation lists.  The generic framework
(universal_function.h, less_equal_scalar.h, not_equal.h, cos.h and the
NumPyOpCode enum) is not among the provided sources, so those parts are
modelled from the specification and marked as such in their doc comments.
-/

namespace LegateNumpy

/-- The global Type Matrix: the scalar element types the framework
instantiates operators for (spec section 2: 16/32/64-bit signed and
unsigned integers, boolean, half/float/double, complex-float,
complex-double), exactly the twelve types listed in the instantiation
files cos.cc and not_equal.cc. -/
inductive TypeTag where
  | half
  | float32
  | float64
  | int16
  | int32
  | int64
  | uint16
  | uint32
  | uint64
  | bool
  | complex64
  | complex128
deriving DecidableEq, Repr

/-- A type tag is complex iff it is complex-float or complex-double. -/
def TypeTag.isComplex : TypeTag → Bool
  | .complex64 => true
  | .complex128 => true
  | _ => false

/-- The twelve types of the global Type Matrix, in the order the
instantiation lists of cos.cc (lines 22-33) and not_equal.cc
(lines 22-33) use. -/
def legateTypes : List TypeTag :=
  [.half, .float32, .float64, .int16, .int32, .int64,
   .uint16, .uint32, .uint64, .bool, .complex64, .complex128]

/-- From src/src/less_equal_scalar.cc lines 20-29: the explicit
instantiation list of LessEqualScalarTask. -/
def lessEqualScalarInstantiatedTypes : List TypeTag :=
  [.half, .float32, .float64, .int16, .int32, .int64,
   .uint16, .uint32, .uint64, .bool]

/-- From src/src/universal_functions/not_equal.cc lines 22-33: the
explicit instantiation list of NotEqual's tasks. -/
def notEqualInstantiatedTypes : List TypeTag := legateTypes

/-- From src/src/universal_functions/cos.cc lines 22-33: the explicit
instantiation list of Cos's tasks. -/
def cosInstantiatedTypes : List TypeTag := legateTypes

/-- Modelled from the spec: the NumPyOpCode enumeration referenced by the
operator headers (`NumPyOpCode::NUMPY_FLOOR` in floor.h line 28,
`NumPyOpCode::NUMPY_FLOOR_DIVIDE` in floor_divide.h line 30,
`NumPyOpCode::NUMPY_MULTIPLY` in multiply.h line 27); its defining
header is not among the provided sources.  The spec (section 3) makes it
"an immutable enumerated identifier, one per distinct mathematical
operation". -/
inductive NumPyOpCode where
  | NUMPY_COS
  | NUMPY_FLOOR
  | NUMPY_FLOOR_DIVIDE
  | NUMPY_LESS_EQUAL
  | NUMPY_MULTIPLY
  | NUMPY_NOT_EQUAL
deriving DecidableEq, Repr

/-- The list of operation codes of the six operators present in the
provided sources (cos, floor, floor_divide, less_equal, multiply,
not_equal). -/
def registeredOpCodes : List NumPyOpCode :=
  [.NUMPY_COS, .NUMPY_FLOOR, .NUMPY_FLOOR_DIVIDE,
   .NUMPY_LESS_EQUAL, .NUMPY_MULTIPLY, .NUMPY_NOT_EQUAL]

/-! ### Per-element operator functions, from the operator headers -/

/-- MultiplyOperation::operator() from multiply.h lines 29-32:
`return std::forward<U>(u) * std::forward<V>(v);` — plain
multiplication on the element type. -/
def multiplyOperation {α : Type} [Mul α] (u v : α) : α := u * v

/-- FloorOperation::operator() from floor.h line 30,
`return floor(a);`, for a floating-point element type.  Floating-point
values are modelled as exact rationals; `floor` is the mathematical
floor. -/
def floorOperation (a : ℚ) : ℚ := (Rat.floor a : ℤ)

/-- FloorDivideOperation::operator() from floor_divide.h line 32,
`return floor(a / b);`, for a floating-point element type.
Floating-point values are modelled as exact rationals; `/` is exact
division and `floor` the mathematical floor. -/
def floorDivideOperation (a b : ℚ) : ℚ := (Rat.floor (a / b) : ℤ)

/-- An IEEE-754 floating-point value, modelled as NaN, an infinity, or
an exact finite value. -/
inductive FP where
  | nan
  | inf
  | neginf
  | val (q : ℚ)
deriving DecidableEq, Repr

/-- IEEE-754 equality on the floating-point model: NaN compares unequal
to everything, including itself; infinities compare equal only to the
same-signed infinity; finite values compare by value. -/
def ieeeEq : FP → FP → Bool
  | .nan, _ => false
  | _, .nan => false
  | .inf, .inf => true
  | .neginf, .neginf => true
  | .val a, .val b => decide (a = b)
  | _, _ => false

/-- Modelled from the spec: the NotEqual per-element comparison (its
header not_equal.h is not among the provided sources; only the
instantiation list not_equal.cc is).  The spec (section 8) fixes its
semantics on floats: "NaN ≠ NaN under IEEE rules", i.e. it is the
negation of IEEE equality. -/
def notEqualOperation (a b : FP) : Bool := !(ieeeEq a b)

/-- Modelled from the spec: the LessEqual per-element comparison used by
LessEqualScalarTask (its header less_equal_scalar.h is not among the
provided sources; only the instantiation list less_equal_scalar.cc is).
For an integral element type it is the ordinary `a <= b`. -/
def lessEqualOperation (a b : ℤ) : Bool := decide (a ≤ b)

/-! ### Task bodies (universal-function variants)

universal_function.h is not among the provided sources, so the variant
bodies are modelled from the spec (sections 4.2 and 4.3): arrays are
modelled as lists of elements in row-major order. -/

/-- Modelled from the spec (section 4.2): the array-array binary
universal function applies the per-element function to corresponding
elements of two equal-shaped input arrays. -/
def binaryUniversalFunction {α β γ : Type} (f : α → β → γ)
    (A : List α) (B : List β) : List γ :=
  List.zipWith f A B

/-- Modelled from the spec (section 4.2): the unary universal function
applies the per-element function to every element of the input array. -/
def unaryUniversalFunction {α γ : Type} (f : α → γ) (A : List α) : List γ :=
  A.map f

/-- Modelled from the spec (section 4.3): the scalar-broadcast variant
applies the per-element function to every element of the array with the
second operand held constant at the scalar value. -/
def scalarUniversalFunction {α β γ : Type} (f : α → β → γ)
    (A : List α) (s : β) : List γ :=
  A.map (fun a => f a s)

/-- Modelled from the spec (section 8): `broadcast_array(s, shape(A))`,
the array of the given shape whose every element is the scalar `s`. -/
def broadcastArray {β : Type} (s : β) (n : ℕ) : List β :=
  List.replicate n s

/-! ### Operation descriptors, supported-type sets, registry and dispatch

Modelled from the spec (sections 3, 4.1, 4.4 and 7); the registration
machinery of universal_function.h is not among the provided sources. -/

/-- Arity of an operator (spec section 3): unary or binary. -/
inductive Arity where
  | unary
  | binary
deriving DecidableEq, Repr

/-- The result-type rule of a descriptor (spec section 4.1): identity
(result type equals operand type) or fixed (result type is boolean
regardless of operand type). -/
inductive ResultTypeRule where
  | identity
  | fixedBool
deriving DecidableEq, Repr

/-- Applying a result-type rule to an operand type. -/
def resultType : ResultTypeRule → TypeTag → TypeTag
  | .identity, t => t
  | .fixedBool, _ => .bool

/-- Modelled from the spec (section 3): an Operation Descriptor,
{operation code, arity, result-type rule}; the element-wise function is
carried separately, per element type, by the operator definitions
above. -/
structure OperationDescriptor where
  opCode : NumPyOpCode
  arity : Arity
  rule : ResultTypeRule
deriving DecidableEq, Repr

/-- Descriptor of cos (cos.cc): unary, identity result type. -/
def cosDescriptor : OperationDescriptor := ⟨.NUMPY_COS, .unary, .identity⟩

/-- Descriptor of floor (floor.h): unary, identity result type
(`constexpr T operator()(const T& a)`). -/
def floorDescriptor : OperationDescriptor := ⟨.NUMPY_FLOOR, .unary, .identity⟩

/-- Descriptor of floor_divide (floor_divide.h): binary, identity result
type (`constexpr T operator()(const T& a, const T& b)`). -/
def floorDivideDescriptor : OperationDescriptor :=
  ⟨.NUMPY_FLOOR_DIVIDE, .binary, .identity⟩

/-- Descriptor of less_equal (less_equal_scalar.cc): binary comparison,
fixed boolean result type. -/
def lessEqualDescriptor : OperationDescriptor :=
  ⟨.NUMPY_LESS_EQUAL, .binary, .fixedBool⟩

/-- Descriptor of multiply (multiply.h): binary, identity result type. -/
def multiplyDescriptor : OperationDescriptor :=
  ⟨.NUMPY_MULTIPLY, .binary, .identity⟩

/-- Descriptor of not_equal (not_equal.cc): binary comparison, fixed
boolean result type. -/
def notEqualDescriptor : OperationDescriptor :=
  ⟨.NUMPY_NOT_EQUAL, .binary, .fixedBool⟩

/-- The descriptors of the six operators in the provided sources. -/
def registeredDescriptors : List OperationDescriptor :=
  [cosDescriptor, floorDescriptor, floorDivideDescriptor,
   lessEqualDescriptor, multiplyDescriptor, notEqualDescriptor]

/-- Per-operator supported-type set (spec sections 2, 3 and 4.2).  For
cos, not_equal and less_equal the sets are the instantiation lists of
the provided .cc files; for floor and floor_divide (whose instantiation
files are not among the provided sources) the set is modelled from the
spec: "floor/floor-divide exclude complex and boolean"; multiply is
well-defined over complex (spec section 4.2), so it gets the full
matrix minus nothing the spec excludes. -/
def supportedTypes : NumPyOpCode → List TypeTag
  | .NUMPY_COS => cosInstantiatedTypes
  | .NUMPY_FLOOR =>
      [.half, .float32, .float64, .int16, .int32, .int64,
       .uint16, .uint32, .uint64]
  | .NUMPY_FLOOR_DIVIDE =>
      [.half, .float32, .float64, .int16, .int32, .int64,
       .uint16, .uint32, .uint64]
  | .NUMPY_LESS_EQUAL => lessEqualScalarInstantiatedTypes
  | .NUMPY_MULTIPLY => legateTypes
  | .NUMPY_NOT_EQUAL => notEqualInstantiatedTypes

/-- The variant of a Task Instance: array-array or array-scalar. -/
inductive Variant where
  | arrayArray
  | arrayScalar
deriving DecidableEq, Repr

/-- The variants each operator is instantiated for: among the provided
sources only less_equal has the scalar-broadcast form
(less_equal_scalar.cc); every other operator is instantiated in the
array-array form. -/
def variantsOf : NumPyOpCode → List Variant
  | .NUMPY_LESS_EQUAL => [.arrayScalar]
  | _ => [.arrayArray]

/-- A Task Instance key (spec section 3): {operation code, bound element
type, variant}; the executable body is the universal function of the
operator at that type. -/
structure TaskInstance where
  code : NumPyOpCode
  type : TypeTag
  variant : Variant
deriving DecidableEq, Repr

/-- Modelled from the spec (section 4.4): the task registry, one Task
Instance per (operator, supported type, applicable variant)
combination. -/
def taskRegistry : List TaskInstance :=
  registeredOpCodes.flatMap fun c =>
    (supportedTypes c).flatMap fun t =>
      (variantsOf c).map fun v => ⟨c, t, v⟩

/-- Errors the dispatch layer can surface (spec section 7). -/
inductive DispatchError where
  | UnsupportedType
  | UnregisteredTask
deriving DecidableEq, Repr

/-- Modelled from the spec (sections 4.4 and 7): resolving an
(operation code, type, variant) key.  A type outside the operator's
supported set yields UnsupportedType; a supported type with no
registered instance for the requested variant yields UnregisteredTask;
otherwise the Task Instance is returned. -/
def dispatch (c : NumPyOpCode) (t : TypeTag) (v : Variant) :
    Except DispatchError TaskInstance :=
  if t ∈ supportedTypes c then
    if (⟨c, t, v⟩ : TaskInstance) ∈ taskRegistry then
      .ok ⟨c, t, v⟩
    else
      .error .UnregisteredTask
  else
    .error .UnsupportedType

/-! ### Helper lemmas -/

instance {ε α : Type} [DecidableEq ε] [DecidableEq α] :
    DecidableEq (Except ε α) := fun x y =>
  match x, y with
  | .error e, .error f =>
      if h : e = f then isTrue (by subst h; rfl)
      else isFalse (by intro hc; injection hc; contradiction)
  | .ok a, .ok b =>
      if h : a = b then isTrue (by subst h; rfl)
      else isFalse (by intro hc; injection hc; contradiction)
  | .error _, .ok _ => isFalse (by intro hc; injection hc)
  | .ok _, .error _ => isFalse (by intro hc; injection hc)

/-- Mathlib's floor on ℚ coincides with the executable Batteries
Rat.floor used in the operator embeddings. -/
theorem ratFloor_eq_intFloor (q : ℚ) : Rat.floor q = Int.floor q := rfl

/-! ### Claims -/

/-- C1: for every binary per-element operator `f`, every array `A` and
every scalar `s`, the scalar-broadcast variant applied to `(A, s)`
equals, element for element, the array-array variant applied to `A` and
the array of `A`'s shape whose every element is `s`. -/
theorem C1_scalar_broadcast_equivalence {α β γ : Type} (f : α → β → γ)
    (A : List α) (s : β) :
    scalarUniversalFunction f A s =
      binaryUniversalFunction f A (broadcastArray s A.length) := by
  induction A with
  | nil => rfl
  | cons a A ih =>
      simp only [scalarUniversalFunction, binaryUniversalFunction,
        broadcastArray, List.length_cons, List.replicate_succ,
        List.map_cons, List.zipWith_cons_cons] at *
      exact congrArg _ ih

/-- C2: dispatching floor or floor_divide with a complex or boolean
element type fails with UnsupportedType, and no Task Instance for floor
or floor_divide over such a type exists in the registry. -/
theorem C2_floor_type_exclusion (t : TypeTag)
    (h : t = .bool ∨ t.isComplex = true) :
    dispatch .NUMPY_FLOOR t .arrayArray = .error .UnsupportedType ∧
    dispatch .NUMPY_FLOOR_DIVIDE t .arrayArray = .error .UnsupportedType ∧
    ∀ ti ∈ taskRegistry,
      (ti.code = .NUMPY_FLOOR ∨ ti.code = .NUMPY_FLOOR_DIVIDE) →
        ti.type ≠ t := by
  revert h; cases t <;> decide

/-- Witness for C2 at the concrete type tag `bool`. -/
theorem C2_floor_type_exclusion_witness :
    dispatch .NUMPY_FLOOR .bool .arrayArray = .error .UnsupportedType ∧
    dispatch .NUMPY_FLOOR_DIVIDE .bool .arrayArray =
      .error .UnsupportedType ∧
    ∀ ti ∈ taskRegistry,
      (ti.code = .NUMPY_FLOOR ∨ ti.code = .NUMPY_FLOOR_DIVIDE) →
        ti.type ≠ .bool :=
  C2_floor_type_exclusion .bool (Or.inl rfl)

/-- C3: not_equal applied elementwise to the float arrays
[1.0, NaN, 3.0] and [1.0, NaN, 3.0] yields [false, true, false]:
NaN compares not-equal to NaN and the NaN inputs are computed through,
not trapped. -/
theorem C3_not_equal_nan :
    binaryUniversalFunction notEqualOperation
        [.val 1, .nan, .val 3] [.val 1, .nan, .val 3] =
      [false, true, false] := by
  decide

/-- C4: floor_divide applied elementwise to the double arrays [7.0] and
[2.0] yields [3.0]; the per-element computation is the floor of the
quotient. -/
theorem C4_floor_divide_double :
    binaryUniversalFunction floorDivideOperation [7] [2] = [3] := by
  show List.zipWith _ _ _ = _
  simp only [List.zipWith, floorDivideOperation, ratFloor_eq_intFloor]
  norm_num

/-- C5: multiply applied elementwise to the int32 arrays [1, 2, 3] and
[4, 5, 6] yields [4, 10, 18] (all values lie well inside the int32
range, so the embedding over ℤ is exact). -/
theorem C5_multiply_int32 :
    binaryUniversalFunction (multiplyOperation (α := ℤ))
        [1, 2, 3] [4, 5, 6] = [4, 10, 18] := by
  decide

/-- C6: for every supported element type `t`, the identity-rule
operators (multiply, floor, floor_divide) produce result type `t`, and
the fixed-result-type comparisons (not_equal, less_equal) produce
boolean regardless of `t`. -/
theorem C6_result_type_rules (t : TypeTag) :
    resultType multiplyDescriptor.rule t = t ∧
    resultType floorDescriptor.rule t = t ∧
    resultType floorDivideDescriptor.rule t = t ∧
    resultType notEqualDescriptor.rule t = .bool ∧
    resultType lessEqualDescriptor.rule t = .bool := by
  cases t <;> decide

/-- C7: the operation codes of the registered descriptors are pairwise
distinct; in particular NUMPY_FLOOR, NUMPY_FLOOR_DIVIDE and
NUMPY_MULTIPLY differ pairwise. -/
theorem C7_op_codes_unique :
    (registeredDescriptors.map OperationDescriptor.opCode).Nodup ∧
    floorDescriptor.opCode ≠ floorDivideDescriptor.opCode ∧
    floorDescriptor.opCode ≠ multiplyDescriptor.opCode ∧
    floorDivideDescriptor.opCode ≠ multiplyDescriptor.opCode := by
  decide

/-- C8: every task body is deterministic — two executions of the
array-array, unary or scalar-broadcast universal function on identical
inputs produce identical outputs; the per-element functions are pure
with no hidden state, exactly as the stateless const functors of the
source. -/
theorem C8_determinism {α β γ : Type} (g : α → γ) (f : α → β → γ)
    (A A' : List α) (B B' : List β) (s s' : β)
    (hA : A = A') (hB : B = B') (hs : s = s') :
    binaryUniversalFunction f A B = binaryUniversalFunction f A' B' ∧
    unaryUniversalFunction g A = unaryUniversalFunction g A' ∧
    scalarUniversalFunction f A s = scalarUniversalFunction f A' s' := by
  subst hA; subst hB; subst hs
  exact ⟨rfl, rfl, rfl⟩

/-- Witness for C8 at the concrete floor and floor_divide tasks on
concrete arrays. -/
theorem C8_determinism_witness :
    binaryUniversalFunction floorDivideOperation [7] [2] =
      binaryUniversalFunction floorDivideOperation [7] [2] ∧
    unaryUniversalFunction floorOperation [7] =
      unaryUniversalFunction floorOperation [7] ∧
    scalarUniversalFunction floorDivideOperation [7] 2 =
      scalarUniversalFunction floorDivideOperation [7] 2 :=
  C8_determinism floorOperation floorDivideOperation
    [7] [7] [2] [2] 2 2 rfl rfl rfl

/-- C9: LessEqualScalarTask is instantiated for exactly the ten types
__half, float, double, int16, int32, int64, uint16, uint32, uint64 and
bool — no complex type — while the global type matrix contains both
complex types and NotEqual is instantiated for both. -/
theorem C9_less_equal_scalar_instantiations :
    lessEqualScalarInstantiatedTypes.length = 10 ∧
    lessEqualScalarInstantiatedTypes.Nodup ∧
    TypeTag.half ∈ lessEqualScalarInstantiatedTypes ∧
    TypeTag.float32 ∈ lessEqualScalarInstantiatedTypes ∧
    TypeTag.float64 ∈ lessEqualScalarInstantiatedTypes ∧
    TypeTag.int16 ∈ lessEqualScalarInstantiatedTypes ∧
    TypeTag.int32 ∈ lessEqualScalarInstantiatedTypes ∧
    TypeTag.int64 ∈ lessEqualScalarInstantiatedTypes ∧
    TypeTag.uint16 ∈ lessEqualScalarInstantiatedTypes ∧
    TypeTag.uint32 ∈ lessEqualScalarInstantiatedTypes ∧
    TypeTag.uint64 ∈ lessEqualScalarInstantiatedTypes ∧
    TypeTag.bool ∈ lessEqualScalarInstantiatedTypes ∧
    (∀ t ∈ lessEqualScalarInstantiatedTypes, t.isComplex = false) ∧
    TypeTag.complex64 ∈ legateTypes ∧
    TypeTag.complex128 ∈ legateTypes ∧
    TypeTag.complex64 ∈ notEqualInstantiatedTypes ∧
    TypeTag.complex128 ∈ notEqualInstantiatedTypes := by
  decide

end LegateNumpy
